import Mathlib

/-!
Verification development for the Mario expert agent
(src/scripts/mario_expert.py).

The decision engine and its spatial-analyzer helpers are shallowly
embedded here.  Conventions used throughout:

* The per-frame tile grid (a numpy 2D array in the source) is a `Grid`:
  a list of rows together with its declared shape.  Cell reads follow
  Python/numpy indexing semantics via `pyIdx`: an index `i` into an axis
  of length `n` is valid when `-n ≤ i < n`, negative indices wrap to
  `n + i`, and anything else raises `IndexError`.  A read that raises is
  modelled as `none`; every helper that can perform such a read is
  therefore `Option`-valued, and `none` propagates to the caller exactly
  as an uncaught exception would.

* `math.sqrt`-based distance comparisons in the source are represented by
  comparisons on the squared Euclidean distance `dist2`.  Every threshold
  in the source is either an exact square (1.0, 2.0, 3, 4, 5, 6.0, 7) or
  has a non-integer square (1.5² = 2.25, 2.9² = 8.41, 4.5² = 20.25), and
  IEEE-754 `sqrt` is correctly rounded, so for integer squared distances
  the float comparison `sqrt d2 OP t` agrees exactly with the rational
  comparison `d2 OP t²`; the latter is written with integers
  (e.g. `dist ≤ 2.9` becomes `100 * d2 ≤ 841`, `dist ≤ 4.5` becomes
  `4 * d2 ≤ 81`).

* Python `for a in range(x): for b in range(y): ... return r` loops with
  early return are expressed with `scanFirst` over an explicit index list
  (`idxRM` row-major, `idxCM` column-major); the loop body yields
  `none` for an uncaught exception, `some (some r)` for `return r`, and
  `some none` to continue.  Falling off the end yields the function's
  final `return` value (for `check_power_up`, which has no final
  `return`, Python returns `None`, which is falsy at its only call site
  and is modelled as `false`).
-/

set_option maxHeartbeats 4000000

namespace Mario

/-- The `Action` enum of the source, same constructor order and values. -/
inductive Action where
  | DOWN
  | LEFT
  | RIGHT
  | UP
  | JUMP
  | PRESS_B
  | JUMP_OBS
  | JUMP_EMPTY
  | JUMP_POWER_UP
  | JUMP_SKIP_ENEMY
  | JUMP_RIGHT
  | ENEMY_LEFT
  | JUMP_STAIRS
  | TUNNEL_LEFT
  | JUMP_BIG_GAP
  | JUMP_EMPTY_REDUCED
deriving DecidableEq, Repr

/-- `Action.value` of the source enum. -/
def Action.val : Action → Nat
  | .DOWN => 0
  | .LEFT => 1
  | .RIGHT => 2
  | .UP => 3
  | .JUMP => 4
  | .PRESS_B => 5
  | .JUMP_OBS => 6
  | .JUMP_EMPTY => 7
  | .JUMP_POWER_UP => 8
  | .JUMP_SKIP_ENEMY => 9
  | .JUMP_RIGHT => 10
  | .ENEMY_LEFT => 11
  | .JUMP_STAIRS => 12
  | .TUNNEL_LEFT => 13
  | .JUMP_BIG_GAP => 14
  | .JUMP_EMPTY_REDUCED => 15

/-- Tile values of the `Element` enum of the source. -/
def Element.GUMBA : Nat := 15

def Element.GROUND : Nat := 10

def Element.BLOCK : Nat := 12

def Element.POWERUP : Nat := 13

def Element.PIPE : Nat := 14

def Element.PICKUP : Nat := 6

def Element.MARIO : Nat := 1

def Element.EMPTY : Nat := 0

def Element.TOAD : Nat := 16

def Element.FLY : Nat := 18

def Element.ARCHER : Nat := 19

/-- The per-frame tile grid: `x` rows by `y` columns (`game_area.shape`),
stored row-major.  `WF` below ties the declared shape to the data. -/
structure Grid where
  x : Nat
  y : Nat
  data : List (List Nat)
deriving DecidableEq

/-- Python/numpy indexing into an axis of length `n`: valid when
`-n ≤ i < n`, negative indices wrap to `n + i`. -/
def pyIdx (n : Nat) (i : Int) : Option Nat :=
  if 0 ≤ i ∧ i < (n : Int) then some i.toNat
  else if -(n : Int) ≤ i ∧ i < 0 then some (n - (-i).toNat)
  else none

/-- `game_area[a][b]` / `game_area[a, b]` with Python semantics:
`none` models an `IndexError`. -/
def Grid.get (g : Grid) (a b : Int) : Option Nat := do
  let ia ← pyIdx g.x a
  let r ← g.data[ia]?
  let ib ← pyIdx g.y b
  r[ib]?

/-- Well-formedness: the data really has the declared numpy shape. -/
def Grid.WF (g : Grid) : Prop :=
  g.data.length = g.x ∧ ∀ r ∈ g.data, r.length = g.y

instance (g : Grid) : Decidable g.WF := by
  unfold Grid.WF; infer_instance

/-- Total accessor used only to STATE properties about in-bounds cells
(Nat indices); defaults to 0 out of bounds. -/
def Grid.valD (g : Grid) (a b : Nat) : Nat :=
  (g.data.getD a []).getD b 0

/-- Total accessor for Int indices with Python wrap-around, used only to
STATE properties about cells the code reads with possibly-negative
indices; defaults to 0 on `IndexError`. -/
def Grid.valW (g : Grid) (a b : Int) : Nat :=
  (g.get a b).getD 0

/-- Row-major index order: `for a in range(x): for b in range(y)`. -/
def idxRM (x y : Nat) : List (Nat × Nat) :=
  (List.range x).flatMap fun a => (List.range y).map fun b => (a, b)

/-- Column-major index order: `for b in range(y): for a in range(x)`. -/
def idxCM (x y : Nat) : List (Nat × Nat) :=
  (List.range y).flatMap fun b => (List.range x).map fun a => (a, b)

/-- A Python scan loop with early return.  The body yields `none` for an
uncaught exception, `some (some r)` for `return r`, `some none` to
continue; falling off the end returns `dflt`. -/
def scanFirst {α R : Type} (l : List α) (body : α → Option (Option R)) (dflt : R) :
    Option R :=
  match l with
  | [] => some dflt
  | p :: rest =>
    match body p with
    | none => none
    | some (some r) => some r
    | some none => scanFirst rest body dflt

/-- Squared Euclidean distance; `get_distance` of the source is
`sqrt (dist2 …)`, and all its uses compare against fixed thresholds,
which this development rewrites as exact integer comparisons on `dist2`
(see the header comment). -/
def dist2 (row0 col0 row1 col1 : Int) : Int :=
  (col1 - col0) * (col1 - col0) + (row1 - row0) * (row1 - row0)

/-- `MarioExpert.find_mario` (its `row`/`col` parameters are unused in the
source).  Returns the coordinate one column to the right of the first
AGENT cell in row-major order, or `(0, 0)` if there is none. -/
def find_mario (g : Grid) : Option (Nat × Nat) :=
  scanFirst (idxRM g.x g.y)
    (fun p => do
      let v ← g.get p.1 p.2
      pure (if v = 1 then some (p.1, p.2 + 1) else none))
    (0, 0)

/-- `MarioExpert.find_enemy`: first cell with value ≥ `Element.GUMBA`
in row-major order; sentinel `(10000, 0)` if none. -/
def find_enemy (g : Grid) : Option (Nat × Nat) :=
  scanFirst (idxRM g.x g.y)
    (fun p => do
      let v ← g.get p.1 p.2
      pure (if Element.GUMBA ≤ v then some (p.1, p.2) else none))
    (10000, 0)

/-- `MarioExpert.get_enemy_dist`: column-major scan for the first cell
with value ≥ 15 whose column is ≥ `col`; returns its squared distance and
value.  The source's sentinel `(10000, None)` is `(100000000, none)`
here (10000², since distances are kept squared). -/
def get_enemy_dist (row col : Nat) (g : Grid) : Option (Int × Option Nat) :=
  scanFirst (idxCM g.x g.y)
    (fun p => do
      let v ← g.get p.1 p.2
      pure (if 15 ≤ v ∧ col ≤ p.2 then
              some (dist2 row col p.1 p.2, some v)
            else none))
    (100000000, none)

/-- Result values of `MarioExpert.check_obstacle`: Python `False`,
`"obstacle found"`, `"found stairs"`.  (The call site also lists `True`
in its membership test, but the function never returns it.) -/
inductive ObsCheck where
  | noObstacle
  | obstacleFound
  | foundStairs
deriving DecidableEq, Repr

/-- `MarioExpert.check_obstacle`.  The source's print-only `elif` chain is
kept because its reads `game_area[a+1, b]` can raise `IndexError` for
cells in the bottom row; `dist ≤ 1.0` is `dist2 ≤ 1`, `dist ≤ 2.0` is
`dist2 ≤ 4`. -/
def check_obstacle (row col : Nat) (g : Grid) : Option ObsCheck :=
  if row ≤ 14 then
    scanFirst (idxCM g.x g.y)
      (fun p => do
        let v ← g.get p.1 p.2
        if v = Element.BLOCK ∨ v = Element.PIPE ∨
            (v = Element.GROUND ∧ p.2 > col ∧ p.1 ≤ row + 1) then
          if p.2 > col then do
            let early ←
              (if v = Element.BLOCK then do
                let v1 ← g.get ((p.1 : Int) + 1) p.2
                if v1 = Element.BLOCK then do
                  let _ ← g.get ((p.1 : Int) - 1) p.2
                  pure (none : Option ObsCheck)
                else pure none
              else if v = Element.PIPE then pure none
              else if v = Element.GROUND then do
                let v1 ← g.get ((p.1 : Int) + 1) p.2
                if v1 = Element.GROUND then do
                  let v2 ← g.get ((p.1 : Int) - 1) p.2
                  if v2 = Element.GROUND then
                    pure (if dist2 row col p.1 p.2 ≤ 1 then
                            some ObsCheck.obstacleFound
                          else none)
                  else if p.1 = row + 1 then
                    pure (if dist2 row col p.1 p.2 ≤ 4 then
                            some ObsCheck.foundStairs
                          else none)
                  else pure none
                else pure none
              else pure none)
            match early with
            | some r => pure (some r)
            | none =>
              pure (if dist2 row col p.1 p.2 ≤ 4 then
                      some ObsCheck.obstacleFound
                    else none)
          else pure none
        else pure none)
      ObsCheck.noObstacle
  else some ObsCheck.noObstacle

/-- `MarioExpert.check_empty_jump`: column-major scan for an EMPTY cell
exactly two rows below the agent and strictly to its right whose three
left neighbours (Python negative indices wrap) are all GROUND or all
BLOCK, within `dist ≤ 2.9`, i.e. `100 * dist2 ≤ 841`.  (Python evaluates
the three neighbour reads lazily; all three are valid whenever the grid
has width ≥ 3, which the theorems below assume.) -/
def check_empty_jump (row col : Nat) (g : Grid) : Option Bool :=
  scanFirst (idxCM g.x g.y)
    (fun p => do
      let v ← g.get p.1 p.2
      if v = Element.EMPTY ∧ p.1 = row + 2 ∧ p.2 > col then do
        let n1 ← g.get p.1 ((p.2 : Int) - 1)
        let n2 ← g.get p.1 ((p.2 : Int) - 2)
        let n3 ← g.get p.1 ((p.2 : Int) - 3)
        if (n1 = Element.GROUND ∧ n2 = Element.GROUND ∧ n3 = Element.GROUND) ∨
            (n1 = Element.BLOCK ∧ n2 = Element.BLOCK ∧ n3 = Element.BLOCK) then
          pure (if 100 * dist2 row col p.1 p.2 ≤ 841 then some true else none)
        else pure none
      else pure none)
    false

/-- `MarioExpert.check_on_ground`: true when some GROUND cell sits in the
agent's column with GROUND immediately to its right and left (the read at
`b+1` can raise `IndexError` when the agent is in the last column). -/
def check_on_ground (row col : Nat) (g : Grid) : Option Bool :=
  scanFirst (idxCM g.x g.y)
    (fun p => do
      let v ← g.get p.1 p.2
      if v = Element.GROUND ∧ col = p.2 then do
        let r1 ← g.get p.1 ((p.2 : Int) + 1)
        if r1 = Element.GROUND then do
          let r2 ← g.get p.1 ((p.2 : Int) - 1)
          pure (if r2 = Element.GROUND then some true else none)
        else pure none
      else pure none)
    false

/-- `MarioExpert.check_power_up`: for the first POWERUP cell (column-major)
found while the agent is ground-stable and that lies above-or-level and to
the right, returns `dist ≤ 3.0 ∧ game_area[row+2, col] = GROUND`
(`dist ≤ 3.0` is `dist2 ≤ 9`); POWERUP cells outside that quadrant are
skipped.  Python's fall-off return `None` is falsy and modelled `false`. -/
def check_power_up (row col : Nat) (g : Grid) : Option Bool :=
  scanFirst (idxCM g.x g.y)
    (fun p => do
      let v ← g.get p.1 p.2
      if v = Element.POWERUP then do
        let og ← check_on_ground row col g
        if og = true then
          if row ≥ p.1 ∧ p.2 ≥ col then
            if dist2 row col p.1 p.2 ≤ 9 then do
              let below ← g.get ((row : Int) + 2) col
              pure (some (decide (below = Element.GROUND)))
            else pure (some false)
          else pure none
        else pure none
      else pure none)
    false

/-- Scalar world facts `choose_action` reads from the environment:
`get_x_position`, `get_world`, `get_stage`. -/
structure Facts where
  x_pos : Nat
  world : Nat
  stage : Nat
deriving DecidableEq

/-- The cross-step globals of the source: `prev_action` and `prev_x`. -/
structure Hist where
  prev_action : Action
  prev_x : Nat
deriving DecidableEq

/-- `MarioExpert.choose_action` up to (but excluding) the anti-stall
fix-up: the eager perception calls followed by the priority rule chain.
`none` models an uncaught exception. -/
def chooseActionRaw (g : Grid) (f : Facts) (h : Hist) : Option Action :=
  match find_mario g with
  | none => none
  | some (row, col) =>
  match find_enemy g with
  | none => none
  | some (enemy_row, enemy_col) =>
  match get_enemy_dist row col g with
  | none => none
  | some (enemy_dist2, enemy_type) =>
  match check_obstacle row col g with
  | none => none
  | some obstacle_check =>
  if row < 14 then
    match g.get ((row : Int) + 2) col with
    | none => none
    | some pipecell =>
    -- CHECK IF STANDING ON A PIPE
    if pipecell = Element.PIPE then
      some (if h.prev_action ∈
              [Action.JUMP, Action.JUMP_EMPTY, Action.JUMP_OBS, Action.JUMP_POWER_UP]
            then Action.UP else Action.JUMP_RIGHT)
    -- CHECK IF THERE IS AN ENEMY ABOVE (dist < 6.0 is dist2 < 36)
    else if enemy_row < row ∧ enemy_col > col ∧ enemy_dist2 < 36 then
      some Action.LEFT
    -- CHECK IF THERE IS AN ENEMY BELOW (dist < 7 is dist2 < 49)
    else if row + 2 ≤ enemy_row ∧ enemy_row ≠ 0 ∧
        h.prev_action ∈ [Action.RIGHT] ∧
        pipecell ≠ Element.EMPTY ∧ enemy_dist2 < 49 then
      some Action.JUMP_EMPTY
    -- IF TOO CLOSE TO AN ENEMY, REACT (dist ≤ 4.5 is 4 * dist2 ≤ 81)
    else if 4 * enemy_dist2 ≤ 81 then
      some (
        if enemy_type = some Element.GUMBA then
          if h.prev_action = Action.RIGHT then Action.JUMP
          -- dist < 2 is dist2 < 4; dist > 1.5 is 4 * dist2 > 9
          else if h.prev_action = Action.ENEMY_LEFT ∧
              enemy_dist2 < 4 ∧ 4 * enemy_dist2 > 9 then Action.JUMP_SKIP_ENEMY
          -- dist ≥ 1.5 is 4 * dist2 ≥ 9
          else if h.prev_action = Action.ENEMY_LEFT ∧ 4 * enemy_dist2 ≥ 9 then
            Action.JUMP
          else if h.prev_action = Action.JUMP then
            -- dist < 5 is dist2 < 25
            if enemy_dist2 < 25 then Action.ENEMY_LEFT else Action.JUMP_RIGHT
          else Action.JUMP
        -- dist ≤ 4 is dist2 ≤ 16
        else if enemy_type = some Element.TOAD ∧ enemy_dist2 ≤ 16 then
          if h.prev_action = Action.JUMP then Action.LEFT else Action.JUMP
        -- dist ≤ 3 is dist2 ≤ 9
        else if enemy_type = some Element.FLY ∧ enemy_dist2 ≤ 9 then
          if h.prev_action = Action.JUMP then Action.LEFT else Action.JUMP
        else if enemy_type = some Element.ARCHER ∧ enemy_dist2 ≤ 16 ∧
            enemy_row = row then
          if h.prev_action = Action.JUMP then Action.LEFT else Action.JUMP
        else Action.RIGHT)
    else
      -- CHECK EMPTY JUMP (PLATFORMS, OR HOLES)
      match check_empty_jump row col g with
      | none => none
      | some true =>
        some (
          if 2282 ≤ f.x_pos ∧ f.x_pos ≤ 2286 ∧ f.stage = 1 ∧ f.world = 1 then
            Action.UP
          else if f.world = 1 ∧ f.stage = 2 then Action.JUMP_EMPTY_REDUCED
          else if h.prev_action = Action.JUMP_EMPTY ∨
              h.prev_action = Action.JUMP_BIG_GAP ∨
              h.prev_action = Action.JUMP_EMPTY_REDUCED then Action.LEFT
          else if h.prev_action = Action.UP then Action.JUMP_BIG_GAP
          else Action.JUMP_EMPTY)
      | some false =>
        -- JUMP TO COLLECT POWER UP BOXES
        match check_power_up row col g with
        | none => none
        | some true =>
          some (
            if h.prev_action = Action.JUMP_POWER_UP then Action.RIGHT
            else if h.prev_action = Action.JUMP then Action.UP
            else Action.JUMP_POWER_UP)
        | some false =>
          -- JUMP OVER OBSTACLES
          if obstacle_check = ObsCheck.obstacleFound ∨
              obstacle_check = ObsCheck.foundStairs then
            some (
              if h.prev_x = f.x_pos ∧ obstacle_check = ObsCheck.foundStairs then
                Action.JUMP_STAIRS
              else if h.prev_action = Action.JUMP_OBS then Action.RIGHT
              else Action.JUMP_OBS)
          else if row = 0 then some Action.UP
          else some Action.RIGHT
  else some Action.UP

/-- `MarioExpert.choose_action`: the raw rule evaluation followed by the
anti-stall fix-up and the history update (`prev_action := curr_action`,
`prev_x := curr_x`). -/
def chooseAction (g : Grid) (f : Facts) (h : Hist) : Option (Action × Hist) :=
  match chooseActionRaw g f h with
  | none => none
  | some curr =>
    let final :=
      if h.prev_action = Action.UP ∧ curr = Action.UP then Action.RIGHT else curr
    some (final, ⟨final, f.x_pos⟩)

/-- The six joypad inputs, in the order of the source's `valid_actions`
and `release_button` lists. -/
inductive Input where
  | arrowDown
  | arrowLeft
  | arrowRight
  | arrowUp
  | buttonA
  | buttonB
deriving DecidableEq, Repr

/-- `valid_actions` of `MarioController.__init__`: the input pressed for
each simple action value. -/
def valid_actions : List Input :=
  [.arrowDown, .arrowLeft, .arrowRight, .arrowUp, .buttonA, .buttonB]

/-- `release_button` of `MarioController.__init__`: the input released for
each simple action value. -/
def release_button : List Input :=
  [.arrowDown, .arrowLeft, .arrowRight, .arrowUp, .buttonA, .buttonB]

/-- One actuation step of `MarioController.run_action`: `send_input` of a
press or release event, or a run of `pyboy.tick()` calls. -/
inductive Event where
  | press (i : Input)
  | release (i : Input)
  | tick (n : Nat)
deriving DecidableEq, Repr

/-- `MarioController.run_action`, as the trace of events it sends for one
action value.  Each compound branch reassigns the local `action`
(the remaining logical action), and line 213 of the source finally sends
`release_button[action]` unconditionally.  `none` models an out-of-range
list index.  (`JUMP_STAIRS` waits `int(act_freq * 0.2)` ticks; tick
counts are irrelevant to the properties proved here.) -/
def run_action (act_freq : Nat) (action : Nat) : Option (List Event) := do
  let (evs, action') ←
    (if action = Action.JUMP_OBS.val then do
      let pj ← valid_actions[Action.JUMP.val]?
      pure ([Event.press pj, Event.tick (act_freq * 10)], Action.JUMP.val)
    else if action = Action.JUMP_POWER_UP.val then do
      let pj ← valid_actions[Action.JUMP.val]?
      pure ([Event.press pj, Event.tick act_freq], Action.JUMP.val)
    else if action = Action.JUMP_EMPTY.val then do
      let pj ← valid_actions[Action.JUMP.val]?
      let pr ← valid_actions[Action.RIGHT.val]?
      let rj ← release_button[Action.JUMP.val]?
      pure ([Event.press pj, Event.press pr, Event.tick (act_freq * 5),
             Event.release rj], Action.RIGHT.val)
    else if action = Action.JUMP_BIG_GAP.val then do
      let pj ← valid_actions[Action.JUMP.val]?
      let rj ← release_button[Action.JUMP.val]?
      pure ([Event.press pj, Event.tick (act_freq * 10), Event.release rj],
            Action.RIGHT.val)
    else if action = Action.ENEMY_LEFT.val then do
      let pl ← valid_actions[Action.LEFT.val]?
      pure ([Event.press pl, Event.tick act_freq], Action.LEFT.val)
    else if action = Action.TUNNEL_LEFT.val then do
      let pl ← valid_actions[Action.LEFT.val]?
      pure ([Event.press pl, Event.tick (act_freq * 2)], Action.LEFT.val)
    else if action = Action.JUMP_SKIP_ENEMY.val then do
      let pj ← valid_actions[Action.JUMP.val]?
      let pr ← valid_actions[Action.RIGHT.val]?
      let rr ← release_button[Action.RIGHT.val]?
      pure ([Event.press pj, Event.press pr, Event.tick (act_freq * 2),
             Event.release rr], Action.JUMP.val)
    else if action = Action.JUMP_RIGHT.val then do
      let pj ← valid_actions[Action.JUMP.val]?
      let pr ← valid_actions[Action.RIGHT.val]?
      let rr ← release_button[Action.RIGHT.val]?
      pure ([Event.press pj, Event.press pr, Event.tick act_freq,
             Event.release rr], Action.JUMP.val)
    else if action = Action.JUMP_STAIRS.val then do
      let pl ← valid_actions[Action.LEFT.val]?
      let rl ← release_button[Action.LEFT.val]?
      let pr ← valid_actions[Action.RIGHT.val]?
      let pj ← valid_actions[Action.JUMP.val]?
      let rj ← release_button[Action.JUMP.val]?
      pure ([Event.press pl, Event.tick (act_freq * 2 / 10), Event.release rl,
             Event.press pr, Event.tick act_freq, Event.press pj,
             Event.tick act_freq, Event.release rj], Action.RIGHT.val)
    else if action = Action.JUMP_EMPTY_REDUCED.val then do
      let pj ← valid_actions[Action.JUMP.val]?
      let pr ← valid_actions[Action.RIGHT.val]?
      let rj ← release_button[Action.JUMP.val]?
      pure ([Event.press pj, Event.press pr, Event.tick (act_freq * 1),
             Event.release rj], Action.RIGHT.val)
    else do
      let p ← valid_actions[action]?
      pure ([Event.press p, Event.tick act_freq], action))
  let r ← release_button[action']?
  pure (evs ++ [Event.release r])

/-- Actuator state: the set (duplicate-free list) of currently held
inputs.  `release` of an input that is not held is a no-op — the
idempotence the spec relies on. -/
def applyEvent (s : List Input) : Event → List Input
  | .press i => if i ∈ s then s else i :: s
  | .release i => s.erase i
  | .tick _ => s

/-- The input of the remaining logical action each `run_action` branch
leaves in its local `action` variable (read off the reassignments). -/
def remainingInput : Action → Input
  | .DOWN => .arrowDown
  | .LEFT => .arrowLeft
  | .RIGHT => .arrowRight
  | .UP => .arrowUp
  | .JUMP => .buttonA
  | .PRESS_B => .buttonB
  | .JUMP_OBS => .buttonA
  | .JUMP_EMPTY => .arrowRight
  | .JUMP_POWER_UP => .buttonA
  | .JUMP_SKIP_ENEMY => .buttonA
  | .JUMP_RIGHT => .buttonA
  | .ENEMY_LEFT => .arrowLeft
  | .JUMP_STAIRS => .arrowRight
  | .TUNNEL_LEFT => .arrowLeft
  | .JUMP_BIG_GAP => .arrowRight
  | .JUMP_EMPTY_REDUCED => .arrowRight

/-- "Any jump variant of the Action set", following the spec's wording;
used only to state claim C2. -/
def specJumpVariant : Action → Bool
  | .JUMP => true
  | .JUMP_OBS => true
  | .JUMP_EMPTY => true
  | .JUMP_POWER_UP => true
  | .JUMP_SKIP_ENEMY => true
  | .JUMP_RIGHT => true
  | .JUMP_STAIRS => true
  | .JUMP_BIG_GAP => true
  | .JUMP_EMPTY_REDUCED => true
  | _ => false

/-- Claim C6's stated condition, read literally: an EMPTY cell exactly two
rows below the agent, strictly to its right, whose THREE IMMEDIATE LEFT
NEIGHBOURS IN THE SAME ROW (hence its column is ≥ 3) are all GROUND or
all BLOCK, within distance ≤ 2.9. -/
def specGapAheadRHS (g : Grid) (row col : Nat) : Prop :=
  ∃ a < g.x, ∃ b < g.y, g.valD a b = Element.EMPTY ∧ a = row + 2 ∧ b > col ∧
    3 ≤ b ∧
    ((g.valD a (b - 1) = Element.GROUND ∧ g.valD a (b - 2) = Element.GROUND ∧
      g.valD a (b - 3) = Element.GROUND) ∨
     (g.valD a (b - 1) = Element.BLOCK ∧ g.valD a (b - 2) = Element.BLOCK ∧
      g.valD a (b - 3) = Element.BLOCK)) ∧
    100 * dist2 row col a b ≤ 841

instance (g : Grid) (row col : Nat) : Decidable (specGapAheadRHS g row col) := by
  unfold specGapAheadRHS; infer_instance

/-- The condition on cell `p` that `check_empty_jump row col` scans for
(neighbour columns read with Python wrap-around). -/
def gapCellP (g : Grid) (row col : Nat) (p : Nat × Nat) : Prop :=
  g.valD p.1 p.2 = Element.EMPTY ∧ p.1 = row + 2 ∧ p.2 > col ∧
  ((g.valW p.1 ((p.2 : Int) - 1) = Element.GROUND ∧
    g.valW p.1 ((p.2 : Int) - 2) = Element.GROUND ∧
    g.valW p.1 ((p.2 : Int) - 3) = Element.GROUND) ∨
   (g.valW p.1 ((p.2 : Int) - 1) = Element.BLOCK ∧
    g.valW p.1 ((p.2 : Int) - 2) = Element.BLOCK ∧
    g.valW p.1 ((p.2 : Int) - 3) = Element.BLOCK)) ∧
  100 * dist2 row col p.1 p.2 ≤ 841

instance (g : Grid) (row col : Nat) (p : Nat × Nat) :
    Decidable (gapCellP g row col p) := by
  unfold gapCellP; infer_instance

/-- The all-EMPTY 16×20 grid. -/
def gZero : Grid :=
  ⟨16, 20,
  [[0, 0, 0, 0, 0, 0, 0, 0, 0, 0, 0, 0, 0, 0, 0, 0, 0, 0, 0, 0],
   [0, 0, 0, 0, 0, 0, 0, 0, 0, 0, 0, 0, 0, 0, 0, 0, 0, 0, 0, 0],
   [0, 0, 0, 0, 0, 0, 0, 0, 0, 0, 0, 0, 0, 0, 0, 0, 0, 0, 0, 0],
   [0, 0, 0, 0, 0, 0, 0, 0, 0, 0, 0, 0, 0, 0, 0, 0, 0, 0, 0, 0],
   [0, 0, 0, 0, 0, 0, 0, 0, 0, 0, 0, 0, 0, 0, 0, 0, 0, 0, 0, 0],
   [0, 0, 0, 0, 0, 0, 0, 0, 0, 0, 0, 0, 0, 0, 0, 0, 0, 0, 0, 0],
   [0, 0, 0, 0, 0, 0, 0, 0, 0, 0, 0, 0, 0, 0, 0, 0, 0, 0, 0, 0],
   [0, 0, 0, 0, 0, 0, 0, 0, 0, 0, 0, 0, 0, 0, 0, 0, 0, 0, 0, 0],
   [0, 0, 0, 0, 0, 0, 0, 0, 0, 0, 0, 0, 0, 0, 0, 0, 0, 0, 0, 0],
   [0, 0, 0, 0, 0, 0, 0, 0, 0, 0, 0, 0, 0, 0, 0, 0, 0, 0, 0, 0],
   [0, 0, 0, 0, 0, 0, 0, 0, 0, 0, 0, 0, 0, 0, 0, 0, 0, 0, 0, 0],
   [0, 0, 0, 0, 0, 0, 0, 0, 0, 0, 0, 0, 0, 0, 0, 0, 0, 0, 0, 0],
   [0, 0, 0, 0, 0, 0, 0, 0, 0, 0, 0, 0, 0, 0, 0, 0, 0, 0, 0, 0],
   [0, 0, 0, 0, 0, 0, 0, 0, 0, 0, 0, 0, 0, 0, 0, 0, 0, 0, 0, 0],
   [0, 0, 0, 0, 0, 0, 0, 0, 0, 0, 0, 0, 0, 0, 0, 0, 0, 0, 0, 0],
   [0, 0, 0, 0, 0, 0, 0, 0, 0, 0, 0, 0, 0, 0, 0, 0, 0, 0, 0, 0]]⟩

/-- A 2×2 agent with top-left cell at (5,3); PIPE at (7,4), two rows below
the leading edge (5,4). -/
def gPipe : Grid :=
  ⟨16, 20,
  [[0, 0, 0, 0, 0, 0, 0, 0, 0, 0, 0, 0, 0, 0, 0, 0, 0, 0, 0, 0],
   [0, 0, 0, 0, 0, 0, 0, 0, 0, 0, 0, 0, 0, 0, 0, 0, 0, 0, 0, 0],
   [0, 0, 0, 0, 0, 0, 0, 0, 0, 0, 0, 0, 0, 0, 0, 0, 0, 0, 0, 0],
   [0, 0, 0, 0, 0, 0, 0, 0, 0, 0, 0, 0, 0, 0, 0, 0, 0, 0, 0, 0],
   [0, 0, 0, 0, 0, 0, 0, 0, 0, 0, 0, 0, 0, 0, 0, 0, 0, 0, 0, 0],
   [0, 0, 0, 1, 1, 0, 0, 0, 0, 0, 0, 0, 0, 0, 0, 0, 0, 0, 0, 0],
   [0, 0, 0, 1, 1, 0, 0, 0, 0, 0, 0, 0, 0, 0, 0, 0, 0, 0, 0, 0],
   [0, 0, 0, 0, 14, 0, 0, 0, 0, 0, 0, 0, 0, 0, 0, 0, 0, 0, 0, 0],
   [0, 0, 0, 0, 0, 0, 0, 0, 0, 0, 0, 0, 0, 0, 0, 0, 0, 0, 0, 0],
   [0, 0, 0, 0, 0, 0, 0, 0, 0, 0, 0, 0, 0, 0, 0, 0, 0, 0, 0, 0],
   [0, 0, 0, 0, 0, 0, 0, 0, 0, 0, 0, 0, 0, 0, 0, 0, 0, 0, 0, 0],
   [0, 0, 0, 0, 0, 0, 0, 0, 0, 0, 0, 0, 0, 0, 0, 0, 0, 0, 0, 0],
   [0, 0, 0, 0, 0, 0, 0, 0, 0, 0, 0, 0, 0, 0, 0, 0, 0, 0, 0, 0],
   [0, 0, 0, 0, 0, 0, 0, 0, 0, 0, 0, 0, 0, 0, 0, 0, 0, 0, 0, 0],
   [0, 0, 0, 0, 0, 0, 0, 0, 0, 0, 0, 0, 0, 0, 0, 0, 0, 0, 0, 0],
   [0, 0, 0, 0, 0, 0, 0, 0, 0, 0, 0, 0, 0, 0, 0, 0, 0, 0, 0, 0]]⟩

/-- Facts used by the concrete scenarios: x position 0, world 1, stage 1. -/
def f0 : Facts := ⟨0, 1, 1⟩


/-- All EMPTY except a single AGENT cell at (0,19), in the last column. -/
def gC1 : Grid :=
  ⟨16, 20,
  [[0, 0, 0, 0, 0, 0, 0, 0, 0, 0, 0, 0, 0, 0, 0, 0, 0, 0, 0, 1],
   [0, 0, 0, 0, 0, 0, 0, 0, 0, 0, 0, 0, 0, 0, 0, 0, 0, 0, 0, 0],
   [0, 0, 0, 0, 0, 0, 0, 0, 0, 0, 0, 0, 0, 0, 0, 0, 0, 0, 0, 0],
   [0, 0, 0, 0, 0, 0, 0, 0, 0, 0, 0, 0, 0, 0, 0, 0, 0, 0, 0, 0],
   [0, 0, 0, 0, 0, 0, 0, 0, 0, 0, 0, 0, 0, 0, 0, 0, 0, 0, 0, 0],
   [0, 0, 0, 0, 0, 0, 0, 0, 0, 0, 0, 0, 0, 0, 0, 0, 0, 0, 0, 0],
   [0, 0, 0, 0, 0, 0, 0, 0, 0, 0, 0, 0, 0, 0, 0, 0, 0, 0, 0, 0],
   [0, 0, 0, 0, 0, 0, 0, 0, 0, 0, 0, 0, 0, 0, 0, 0, 0, 0, 0, 0],
   [0, 0, 0, 0, 0, 0, 0, 0, 0, 0, 0, 0, 0, 0, 0, 0, 0, 0, 0, 0],
   [0, 0, 0, 0, 0, 0, 0, 0, 0, 0, 0, 0, 0, 0, 0, 0, 0, 0, 0, 0],
   [0, 0, 0, 0, 0, 0, 0, 0, 0, 0, 0, 0, 0, 0, 0, 0, 0, 0, 0, 0],
   [0, 0, 0, 0, 0, 0, 0, 0, 0, 0, 0, 0, 0, 0, 0, 0, 0, 0, 0, 0],
   [0, 0, 0, 0, 0, 0, 0, 0, 0, 0, 0, 0, 0, 0, 0, 0, 0, 0, 0, 0],
   [0, 0, 0, 0, 0, 0, 0, 0, 0, 0, 0, 0, 0, 0, 0, 0, 0, 0, 0, 0],
   [0, 0, 0, 0, 0, 0, 0, 0, 0, 0, 0, 0, 0, 0, 0, 0, 0, 0, 0, 0],
   [0, 0, 0, 0, 0, 0, 0, 0, 0, 0, 0, 0, 0, 0, 0, 0, 0, 0, 0, 0]]⟩

/-- All EMPTY except a single AGENT cell at (3,19), in the last column. -/
def gC10 : Grid :=
  ⟨16, 20,
  [[0, 0, 0, 0, 0, 0, 0, 0, 0, 0, 0, 0, 0, 0, 0, 0, 0, 0, 0, 0],
   [0, 0, 0, 0, 0, 0, 0, 0, 0, 0, 0, 0, 0, 0, 0, 0, 0, 0, 0, 0],
   [0, 0, 0, 0, 0, 0, 0, 0, 0, 0, 0, 0, 0, 0, 0, 0, 0, 0, 0, 0],
   [0, 0, 0, 0, 0, 0, 0, 0, 0, 0, 0, 0, 0, 0, 0, 0, 0, 0, 0, 1],
   [0, 0, 0, 0, 0, 0, 0, 0, 0, 0, 0, 0, 0, 0, 0, 0, 0, 0, 0, 0],
   [0, 0, 0, 0, 0, 0, 0, 0, 0, 0, 0, 0, 0, 0, 0, 0, 0, 0, 0, 0],
   [0, 0, 0, 0, 0, 0, 0, 0, 0, 0, 0, 0, 0, 0, 0, 0, 0, 0, 0, 0],
   [0, 0, 0, 0, 0, 0, 0, 0, 0, 0, 0, 0, 0, 0, 0, 0, 0, 0, 0, 0],
   [0, 0, 0, 0, 0, 0, 0, 0, 0, 0, 0, 0, 0, 0, 0, 0, 0, 0, 0, 0],
   [0, 0, 0, 0, 0, 0, 0, 0, 0, 0, 0, 0, 0, 0, 0, 0, 0, 0, 0, 0],
   [0, 0, 0, 0, 0, 0, 0, 0, 0, 0, 0, 0, 0, 0, 0, 0, 0, 0, 0, 0],
   [0, 0, 0, 0, 0, 0, 0, 0, 0, 0, 0, 0, 0, 0, 0, 0, 0, 0, 0, 0],
   [0, 0, 0, 0, 0, 0, 0, 0, 0, 0, 0, 0, 0, 0, 0, 0, 0, 0, 0, 0],
   [0, 0, 0, 0, 0, 0, 0, 0, 0, 0, 0, 0, 0, 0, 0, 0, 0, 0, 0, 0],
   [0, 0, 0, 0, 0, 0, 0, 0, 0, 0, 0, 0, 0, 0, 0, 0, 0, 0, 0, 0],
   [0, 0, 0, 0, 0, 0, 0, 0, 0, 0, 0, 0, 0, 0, 0, 0, 0, 0, 0, 0]]⟩

/-- Agent with top-left cell at (5,3), leading edge (5,4); a GUMBA at (6,5), one row below the leading edge; GROUND at (7,4). -/
def gC3x : Grid :=
  ⟨16, 20,
  [[0, 0, 0, 0, 0, 0, 0, 0, 0, 0, 0, 0, 0, 0, 0, 0, 0, 0, 0, 0],
   [0, 0, 0, 0, 0, 0, 0, 0, 0, 0, 0, 0, 0, 0, 0, 0, 0, 0, 0, 0],
   [0, 0, 0, 0, 0, 0, 0, 0, 0, 0, 0, 0, 0, 0, 0, 0, 0, 0, 0, 0],
   [0, 0, 0, 0, 0, 0, 0, 0, 0, 0, 0, 0, 0, 0, 0, 0, 0, 0, 0, 0],
   [0, 0, 0, 0, 0, 0, 0, 0, 0, 0, 0, 0, 0, 0, 0, 0, 0, 0, 0, 0],
   [0, 0, 0, 1, 1, 0, 0, 0, 0, 0, 0, 0, 0, 0, 0, 0, 0, 0, 0, 0],
   [0, 0, 0, 1, 1, 15, 0, 0, 0, 0, 0, 0, 0, 0, 0, 0, 0, 0, 0, 0],
   [0, 0, 0, 0, 10, 0, 0, 0, 0, 0, 0, 0, 0, 0, 0, 0, 0, 0, 0, 0],
   [0, 0, 0, 0, 0, 0, 0, 0, 0, 0, 0, 0, 0, 0, 0, 0, 0, 0, 0, 0],
   [0, 0, 0, 0, 0, 0, 0, 0, 0, 0, 0, 0, 0, 0, 0, 0, 0, 0, 0, 0],
   [0, 0, 0, 0, 0, 0, 0, 0, 0, 0, 0, 0, 0, 0, 0, 0, 0, 0, 0, 0],
   [0, 0, 0, 0, 0, 0, 0, 0, 0, 0, 0, 0, 0, 0, 0, 0, 0, 0, 0, 0],
   [0, 0, 0, 0, 0, 0, 0, 0, 0, 0, 0, 0, 0, 0, 0, 0, 0, 0, 0, 0],
   [0, 0, 0, 0, 0, 0, 0, 0, 0, 0, 0, 0, 0, 0, 0, 0, 0, 0, 0, 0],
   [0, 0, 0, 0, 0, 0, 0, 0, 0, 0, 0, 0, 0, 0, 0, 0, 0, 0, 0, 0],
   [0, 0, 0, 0, 0, 0, 0, 0, 0, 0, 0, 0, 0, 0, 0, 0, 0, 0, 0, 0]]⟩

/-- Agent with top-left cell at (5,3), leading edge (5,4); a GUMBA at (7,5), two rows below the leading edge; GROUND at (7,4). -/
def gC3w : Grid :=
  ⟨16, 20,
  [[0, 0, 0, 0, 0, 0, 0, 0, 0, 0, 0, 0, 0, 0, 0, 0, 0, 0, 0, 0],
   [0, 0, 0, 0, 0, 0, 0, 0, 0, 0, 0, 0, 0, 0, 0, 0, 0, 0, 0, 0],
   [0, 0, 0, 0, 0, 0, 0, 0, 0, 0, 0, 0, 0, 0, 0, 0, 0, 0, 0, 0],
   [0, 0, 0, 0, 0, 0, 0, 0, 0, 0, 0, 0, 0, 0, 0, 0, 0, 0, 0, 0],
   [0, 0, 0, 0, 0, 0, 0, 0, 0, 0, 0, 0, 0, 0, 0, 0, 0, 0, 0, 0],
   [0, 0, 0, 1, 1, 0, 0, 0, 0, 0, 0, 0, 0, 0, 0, 0, 0, 0, 0, 0],
   [0, 0, 0, 1, 1, 0, 0, 0, 0, 0, 0, 0, 0, 0, 0, 0, 0, 0, 0, 0],
   [0, 0, 0, 0, 10, 15, 0, 0, 0, 0, 0, 0, 0, 0, 0, 0, 0, 0, 0, 0],
   [0, 0, 0, 0, 0, 0, 0, 0, 0, 0, 0, 0, 0, 0, 0, 0, 0, 0, 0, 0],
   [0, 0, 0, 0, 0, 0, 0, 0, 0, 0, 0, 0, 0, 0, 0, 0, 0, 0, 0, 0],
   [0, 0, 0, 0, 0, 0, 0, 0, 0, 0, 0, 0, 0, 0, 0, 0, 0, 0, 0, 0],
   [0, 0, 0, 0, 0, 0, 0, 0, 0, 0, 0, 0, 0, 0, 0, 0, 0, 0, 0, 0],
   [0, 0, 0, 0, 0, 0, 0, 0, 0, 0, 0, 0, 0, 0, 0, 0, 0, 0, 0, 0],
   [0, 0, 0, 0, 0, 0, 0, 0, 0, 0, 0, 0, 0, 0, 0, 0, 0, 0, 0, 0],
   [0, 0, 0, 0, 0, 0, 0, 0, 0, 0, 0, 0, 0, 0, 0, 0, 0, 0, 0, 0],
   [0, 0, 0, 0, 0, 0, 0, 0, 0, 0, 0, 0, 0, 0, 0, 0, 0, 0, 0, 0]]⟩

/-- GROUND at (7,3)-(7,5); POWERUP cells at (1,4) (scanned first from agent (5,4), distance 4) and (5,6) (distance 2). -/
def gC5x : Grid :=
  ⟨16, 20,
  [[0, 0, 0, 0, 0, 0, 0, 0, 0, 0, 0, 0, 0, 0, 0, 0, 0, 0, 0, 0],
   [0, 0, 0, 0, 13, 0, 0, 0, 0, 0, 0, 0, 0, 0, 0, 0, 0, 0, 0, 0],
   [0, 0, 0, 0, 0, 0, 0, 0, 0, 0, 0, 0, 0, 0, 0, 0, 0, 0, 0, 0],
   [0, 0, 0, 0, 0, 0, 0, 0, 0, 0, 0, 0, 0, 0, 0, 0, 0, 0, 0, 0],
   [0, 0, 0, 0, 0, 0, 0, 0, 0, 0, 0, 0, 0, 0, 0, 0, 0, 0, 0, 0],
   [0, 0, 0, 0, 0, 0, 13, 0, 0, 0, 0, 0, 0, 0, 0, 0, 0, 0, 0, 0],
   [0, 0, 0, 0, 0, 0, 0, 0, 0, 0, 0, 0, 0, 0, 0, 0, 0, 0, 0, 0],
   [0, 0, 0, 10, 10, 10, 0, 0, 0, 0, 0, 0, 0, 0, 0, 0, 0, 0, 0, 0],
   [0, 0, 0, 0, 0, 0, 0, 0, 0, 0, 0, 0, 0, 0, 0, 0, 0, 0, 0, 0],
   [0, 0, 0, 0, 0, 0, 0, 0, 0, 0, 0, 0, 0, 0, 0, 0, 0, 0, 0, 0],
   [0, 0, 0, 0, 0, 0, 0, 0, 0, 0, 0, 0, 0, 0, 0, 0, 0, 0, 0, 0],
   [0, 0, 0, 0, 0, 0, 0, 0, 0, 0, 0, 0, 0, 0, 0, 0, 0, 0, 0, 0],
   [0, 0, 0, 0, 0, 0, 0, 0, 0, 0, 0, 0, 0, 0, 0, 0, 0, 0, 0, 0],
   [0, 0, 0, 0, 0, 0, 0, 0, 0, 0, 0, 0, 0, 0, 0, 0, 0, 0, 0, 0],
   [0, 0, 0, 0, 0, 0, 0, 0, 0, 0, 0, 0, 0, 0, 0, 0, 0, 0, 0, 0],
   [0, 0, 0, 0, 0, 0, 0, 0, 0, 0, 0, 0, 0, 0, 0, 0, 0, 0, 0, 0]]⟩

/-- GROUND at (2,0), (2,18) and (2,19); every other cell EMPTY. -/
def gC6x : Grid :=
  ⟨16, 20,
  [[0, 0, 0, 0, 0, 0, 0, 0, 0, 0, 0, 0, 0, 0, 0, 0, 0, 0, 0, 0],
   [0, 0, 0, 0, 0, 0, 0, 0, 0, 0, 0, 0, 0, 0, 0, 0, 0, 0, 0, 0],
   [10, 0, 0, 0, 0, 0, 0, 0, 0, 0, 0, 0, 0, 0, 0, 0, 0, 0, 10, 10],
   [0, 0, 0, 0, 0, 0, 0, 0, 0, 0, 0, 0, 0, 0, 0, 0, 0, 0, 0, 0],
   [0, 0, 0, 0, 0, 0, 0, 0, 0, 0, 0, 0, 0, 0, 0, 0, 0, 0, 0, 0],
   [0, 0, 0, 0, 0, 0, 0, 0, 0, 0, 0, 0, 0, 0, 0, 0, 0, 0, 0, 0],
   [0, 0, 0, 0, 0, 0, 0, 0, 0, 0, 0, 0, 0, 0, 0, 0, 0, 0, 0, 0],
   [0, 0, 0, 0, 0, 0, 0, 0, 0, 0, 0, 0, 0, 0, 0, 0, 0, 0, 0, 0],
   [0, 0, 0, 0, 0, 0, 0, 0, 0, 0, 0, 0, 0, 0, 0, 0, 0, 0, 0, 0],
   [0, 0, 0, 0, 0, 0, 0, 0, 0, 0, 0, 0, 0, 0, 0, 0, 0, 0, 0, 0],
   [0, 0, 0, 0, 0, 0, 0, 0, 0, 0, 0, 0, 0, 0, 0, 0, 0, 0, 0, 0],
   [0, 0, 0, 0, 0, 0, 0, 0, 0, 0, 0, 0, 0, 0, 0, 0, 0, 0, 0, 0],
   [0, 0, 0, 0, 0, 0, 0, 0, 0, 0, 0, 0, 0, 0, 0, 0, 0, 0, 0, 0],
   [0, 0, 0, 0, 0, 0, 0, 0, 0, 0, 0, 0, 0, 0, 0, 0, 0, 0, 0, 0],
   [0, 0, 0, 0, 0, 0, 0, 0, 0, 0, 0, 0, 0, 0, 0, 0, 0, 0, 0, 0],
   [0, 0, 0, 0, 0, 0, 0, 0, 0, 0, 0, 0, 0, 0, 0, 0, 0, 0, 0, 0]]⟩

/-- A single GUMBA at (4,7). -/
def gC4w : Grid :=
  ⟨16, 20,
  [[0, 0, 0, 0, 0, 0, 0, 0, 0, 0, 0, 0, 0, 0, 0, 0, 0, 0, 0, 0],
   [0, 0, 0, 0, 0, 0, 0, 0, 0, 0, 0, 0, 0, 0, 0, 0, 0, 0, 0, 0],
   [0, 0, 0, 0, 0, 0, 0, 0, 0, 0, 0, 0, 0, 0, 0, 0, 0, 0, 0, 0],
   [0, 0, 0, 0, 0, 0, 0, 0, 0, 0, 0, 0, 0, 0, 0, 0, 0, 0, 0, 0],
   [0, 0, 0, 0, 0, 0, 0, 15, 0, 0, 0, 0, 0, 0, 0, 0, 0, 0, 0, 0],
   [0, 0, 0, 0, 0, 0, 0, 0, 0, 0, 0, 0, 0, 0, 0, 0, 0, 0, 0, 0],
   [0, 0, 0, 0, 0, 0, 0, 0, 0, 0, 0, 0, 0, 0, 0, 0, 0, 0, 0, 0],
   [0, 0, 0, 0, 0, 0, 0, 0, 0, 0, 0, 0, 0, 0, 0, 0, 0, 0, 0, 0],
   [0, 0, 0, 0, 0, 0, 0, 0, 0, 0, 0, 0, 0, 0, 0, 0, 0, 0, 0, 0],
   [0, 0, 0, 0, 0, 0, 0, 0, 0, 0, 0, 0, 0, 0, 0, 0, 0, 0, 0, 0],
   [0, 0, 0, 0, 0, 0, 0, 0, 0, 0, 0, 0, 0, 0, 0, 0, 0, 0, 0, 0],
   [0, 0, 0, 0, 0, 0, 0, 0, 0, 0, 0, 0, 0, 0, 0, 0, 0, 0, 0, 0],
   [0, 0, 0, 0, 0, 0, 0, 0, 0, 0, 0, 0, 0, 0, 0, 0, 0, 0, 0, 0],
   [0, 0, 0, 0, 0, 0, 0, 0, 0, 0, 0, 0, 0, 0, 0, 0, 0, 0, 0, 0],
   [0, 0, 0, 0, 0, 0, 0, 0, 0, 0, 0, 0, 0, 0, 0, 0, 0, 0, 0, 0],
   [0, 0, 0, 0, 0, 0, 0, 0, 0, 0, 0, 0, 0, 0, 0, 0, 0, 0, 0, 0]]⟩

theorem scanFirst_isSome {α R : Type} {l : List α} {body : α → Option (Option R)}
    {dflt : R} (hb : ∀ p ∈ l, (body p).isSome) :
    (scanFirst l body dflt).isSome := by
  induction l with
  | nil => simp [scanFirst]
  | cons q rest ih =>
    have hq := hb q (List.mem_cons_self q rest)
    cases hbq : body q with
    | none => rw [hbq] at hq; simp at hq
    | some o =>
      cases o with
      | none =>
        have := ih fun p hp => hb p (List.mem_cons_of_mem _ hp)
        simpa [scanFirst, hbq] using this
      | some r => simp [scanFirst, hbq]

theorem scanFirst_eq_find {α R : Type} {l : List α} {body : α → Option (Option R)}
    {dflt : R} (P : α → Prop) [DecidablePred P] (F : α → R)
    (hb : ∀ p ∈ l, body p = some (if P p then some (F p) else none)) :
    scanFirst l body dflt =
      some (Option.elim (l.find? fun p => decide (P p)) dflt F) := by
  induction l with
  | nil => simp [scanFirst]
  | cons q rest ih =>
    have hq := hb q (List.mem_cons_self q rest)
    by_cases hP : P q
    · rw [List.find?_cons_of_pos _ (by simpa using hP)]
      simp [scanFirst, hq, hP]
    · rw [List.find?_cons_of_neg _ (by simpa using hP)]
      have := ih fun p hp => hb p (List.mem_cons_of_mem _ hp)
      simp only [scanFirst, hq, if_neg hP]
      exact this

theorem scanFirst_eq_dflt {α R : Type} {l : List α} {body : α → Option (Option R)}
    {dflt : R} (hb : ∀ p ∈ l, body p = some none) :
    scanFirst l body dflt = some dflt := by
  induction l with
  | nil => simp [scanFirst]
  | cons q rest ih =>
    have hq := hb q (List.mem_cons_self q rest)
    simp only [scanFirst, hq]
    exact ih fun p hp => hb p (List.mem_cons_of_mem _ hp)

theorem mem_idxRM {x y : Nat} {p : Nat × Nat} :
    p ∈ idxRM x y ↔ p.1 < x ∧ p.2 < y := by
  obtain ⟨a, b⟩ := p
  simp only [idxRM, List.mem_flatMap, List.mem_map, List.mem_range, Prod.mk.injEq]
  constructor
  · rintro ⟨a', ha', b', hb', rfl, rfl⟩
    exact ⟨ha', hb'⟩
  · rintro ⟨ha, hb⟩
    exact ⟨a, ha, b, hb, rfl, rfl⟩

theorem mem_idxCM {x y : Nat} {p : Nat × Nat} :
    p ∈ idxCM x y ↔ p.1 < x ∧ p.2 < y := by
  obtain ⟨a, b⟩ := p
  simp only [idxCM, List.mem_flatMap, List.mem_map, List.mem_range, Prod.mk.injEq]
  constructor
  · rintro ⟨b', hb', a', ha', rfl, rfl⟩
    exact ⟨ha', hb'⟩
  · rintro ⟨ha, hb⟩
    exact ⟨b, hb, a, ha, rfl, rfl⟩

theorem Grid.get_eq_valD (g : Grid) (hwf : g.WF) {a b : Nat}
    (ha : a < g.x) (hb : b < g.y) :
    g.get a b = some (g.valD a b) := by
  obtain ⟨hlen, hrows⟩ := hwf
  have hd : a < g.data.length := by omega
  have hrow : g.data[a].length = g.y := hrows _ (List.getElem_mem hd)
  have hb' : b < g.data[a].length := by omega
  have hia : pyIdx g.x a = some a := by
    simp [pyIdx]
    omega
  have hib : pyIdx g.y b = some b := by
    simp [pyIdx]
    omega
  simp only [Grid.get, hia, hib, Option.bind_eq_bind, Option.some_bind,
    List.getElem?_eq_getElem hd, List.getElem?_eq_getElem hb']
  simp [Grid.valD, List.getD_eq_getElem?_getD, List.getElem?_eq_getElem hd,
    List.getElem?_eq_getElem hb']

theorem Grid.get_isSome_int (g : Grid) (hwf : g.WF) {a : Nat} {i : Int}
    (ha : a < g.x) (hi1 : -(g.y : Int) ≤ i) (hi2 : i < (g.y : Int)) :
    (g.get a i).isSome := by
  obtain ⟨hlen, hrows⟩ := hwf
  have hd : a < g.data.length := by omega
  have hrow : g.data[a].length = g.y := hrows _ (List.getElem_mem hd)
  have hia : pyIdx g.x a = some a := by
    simp [pyIdx]
    omega
  have hy0 : 0 < g.y := by
    rcases Nat.eq_zero_or_pos g.y with h0 | h0
    · exfalso; rw [h0] at hi1 hi2; omega
    · exact h0
  have hib : ∃ j, pyIdx g.y i = some j ∧ j < g.y := by
    unfold pyIdx
    by_cases hpos : 0 ≤ i ∧ i < (g.y : Int)
    · refine ⟨i.toNat, by simp [hpos], ?_⟩
      omega
    · have hneg : -(g.y : Int) ≤ i ∧ i < 0 := by omega
      refine ⟨g.y - (-i).toNat, by simp [hpos, hneg], ?_⟩
      omega
  obtain ⟨j, hib, hj⟩ := hib
  have hj' : j < g.data[a].length := by omega
  simp [Grid.get, hia, hib, List.getElem?_eq_getElem hd,
    List.getElem?_eq_getElem hj']

theorem Grid.get_eq_valW (g : Grid) {a b : Int} (h : (g.get a b).isSome) :
    g.get a b = some (g.valW a b) := by
  unfold Grid.valW
  cases hg : g.get a b with
  | none => rw [hg] at h; simp at h
  | some v => rfl

theorem Grid.get_row2 (g : Grid) (hwf : g.WF) {row col : Nat}
    (hrow : row + 2 < g.x) (hcol : col < g.y) :
    g.get ((row : Int) + 2) col = some (g.valD (row + 2) col) := by
  have hcast : ((row : Int) + 2) = ((row + 2 : Nat) : Int) := by push_cast; ring
  rw [hcast, Grid.get_eq_valD g hwf hrow hcol]

theorem find_mario_eq (g : Grid) (hwf : g.WF) :
    find_mario g =
      some (Option.elim
        ((idxRM g.x g.y).find? fun p => decide (g.valD p.1 p.2 = 1))
        (0, 0) (fun p => (p.1, p.2 + 1))) := by
  unfold find_mario
  refine scanFirst_eq_find (fun p : Nat × Nat => g.valD p.1 p.2 = 1)
    (fun p : Nat × Nat => (p.1, p.2 + 1)) ?_
  intro p hp
  obtain ⟨ha, hb⟩ := mem_idxRM.mp hp
  rw [Grid.get_eq_valD g hwf ha hb]
  rfl

theorem find_enemy_isSome (g : Grid) (hwf : g.WF) : (find_enemy g).isSome := by
  unfold find_enemy
  refine scanFirst_isSome ?_
  intro p hp
  obtain ⟨ha, hb⟩ := mem_idxRM.mp hp
  rw [Grid.get_eq_valD g hwf ha hb]
  simp

theorem get_enemy_dist_eq (row col : Nat) (g : Grid) (hwf : g.WF) :
    get_enemy_dist row col g =
      some (Option.elim
        ((idxCM g.x g.y).find? fun p => decide (15 ≤ g.valD p.1 p.2 ∧ col ≤ p.2))
        (100000000, none)
        (fun p => (dist2 row col p.1 p.2, some (g.valD p.1 p.2)))) := by
  unfold get_enemy_dist
  refine scanFirst_eq_find
    (fun p : Nat × Nat => 15 ≤ g.valD p.1 p.2 ∧ col ≤ p.2)
    (fun p : Nat × Nat => (dist2 row col p.1 p.2, some (g.valD p.1 p.2))) ?_
  intro p hp
  obtain ⟨ha, hb⟩ := mem_idxCM.mp hp
  rw [Grid.get_eq_valD g hwf ha hb]
  rfl

theorem get_enemy_dist_isSome (row col : Nat) (g : Grid) (hwf : g.WF) :
    (get_enemy_dist row col g).isSome := by
  rw [get_enemy_dist_eq row col g hwf]
  rfl

theorem check_on_ground_isSome (row col : Nat) (g : Grid) (hwf : g.WF)
    (hcol : col + 1 < g.y) : (check_on_ground row col g).isSome := by
  unfold check_on_ground
  refine scanFirst_isSome ?_
  intro p hp
  obtain ⟨ha, hb⟩ := mem_idxCM.mp hp
  rw [Grid.get_eq_valD g hwf ha hb]
  by_cases h1 : g.valD p.1 p.2 = Element.GROUND ∧ col = p.2
  · have hcb : col = p.2 := h1.2
    have hr1 : (g.get p.1 ((p.2 : Int) + 1)).isSome :=
      g.get_isSome_int hwf ha (by omega) (by omega)
    rw [Grid.get_eq_valW g hr1]
    by_cases h2 : g.valW p.1 ((p.2 : Int) + 1) = Element.GROUND
    · have hr2 : (g.get p.1 ((p.2 : Int) - 1)).isSome :=
        g.get_isSome_int hwf ha (by omega) (by omega)
      rw [Grid.get_eq_valW g hr2]
      by_cases h3 : g.valW p.1 ((p.2 : Int) - 1) = Element.GROUND
      · simp [h1, h2, h3]
      · simp [h1, h2, h3]
    · simp [h1, h2]
  · simp [h1]

theorem check_power_up_eq_of_false (row col : Nat) (g : Grid) (hwf : g.WF)
    (hog : check_on_ground row col g = some false) :
    check_power_up row col g = some false := by
  unfold check_power_up
  refine scanFirst_eq_dflt ?_
  intro p hp
  obtain ⟨ha, hb⟩ := mem_idxCM.mp hp
  rw [Grid.get_eq_valD g hwf ha hb]
  by_cases h1 : g.valD p.1 p.2 = Element.POWERUP
  · simp [h1, hog]
  · simp [h1]

theorem check_power_up_eq_of_true (row col : Nat) (g : Grid) (hwf : g.WF)
    (hog : check_on_ground row col g = some true)
    (hrow : row + 2 < g.x) (hcol : col < g.y) :
    check_power_up row col g =
      some (Option.elim
        ((idxCM g.x g.y).find? fun p =>
          decide (g.valD p.1 p.2 = Element.POWERUP ∧ row ≥ p.1 ∧ p.2 ≥ col))
        false
        (fun p =>
          if dist2 row col p.1 p.2 ≤ 9 then
            decide (g.valD (row + 2) col = Element.GROUND)
          else false)) := by
  unfold check_power_up
  refine scanFirst_eq_find
    (fun p : Nat × Nat =>
      g.valD p.1 p.2 = Element.POWERUP ∧ row ≥ p.1 ∧ p.2 ≥ col)
    (fun p : Nat × Nat =>
      if dist2 row col p.1 p.2 ≤ 9 then
        decide (g.valD (row + 2) col = Element.GROUND)
      else false) ?_
  intro p hp
  obtain ⟨ha, hb⟩ := mem_idxCM.mp hp
  rw [Grid.get_eq_valD g hwf ha hb]
  by_cases h1 : g.valD p.1 p.2 = Element.POWERUP
  · by_cases h2 : row ≥ p.1 ∧ p.2 ≥ col
    · by_cases h3 : dist2 row col p.1 p.2 ≤ 9
      · rw [Grid.get_row2 g hwf hrow hcol]
        simp [h1, h2, h3, hog]
      · simp [h1, h2, h3, hog]
    · simp [h1, h2, hog]
  · simp [h1]

theorem check_empty_jump_eq (row col : Nat) (g : Grid) (hwf : g.WF)
    (hy : 3 ≤ g.y) :
    check_empty_jump row col g =
      some (Option.elim
        ((idxCM g.x g.y).find? fun p => decide (gapCellP g row col p))
        false (fun _ => true)) := by
  unfold check_empty_jump
  refine scanFirst_eq_find (fun p : Nat × Nat => gapCellP g row col p)
    (fun _ => true) ?_
  intro p hp
  obtain ⟨a, b⟩ := p
  obtain ⟨ha, hb⟩ := mem_idxCM.mp hp
  rw [Grid.get_eq_valD g hwf ha hb]
  by_cases h1a : g.valD a b = Element.EMPTY
  · by_cases h1b : a = row + 2
    · subst h1b
      by_cases h1c : b > col
      · have hn1 : (g.get (row + 2 : Nat) ((b : Int) - 1)).isSome :=
          g.get_isSome_int hwf ha (by omega) (by omega)
        have hn2 : (g.get (row + 2 : Nat) ((b : Int) - 2)).isSome :=
          g.get_isSome_int hwf ha (by omega) (by omega)
        have hn3 : (g.get (row + 2 : Nat) ((b : Int) - 3)).isSome :=
          g.get_isSome_int hwf ha (by omega) (by omega)
        rw [Grid.get_eq_valW g hn1, Grid.get_eq_valW g hn2,
          Grid.get_eq_valW g hn3]
        by_cases h2 : (g.valW ((row : Int) + 2) ((b : Int) - 1) = Element.GROUND ∧
            g.valW ((row : Int) + 2) ((b : Int) - 2) = Element.GROUND ∧
            g.valW ((row : Int) + 2) ((b : Int) - 3) = Element.GROUND) ∨
           (g.valW ((row : Int) + 2) ((b : Int) - 1) = Element.BLOCK ∧
            g.valW ((row : Int) + 2) ((b : Int) - 2) = Element.BLOCK ∧
            g.valW ((row : Int) + 2) ((b : Int) - 3) = Element.BLOCK)
        · by_cases h3 : 100 * dist2 row col ((row : Int) + 2) b ≤ 841
          · simp [gapCellP, h1a, h1c, h2, h3]
          · simp [gapCellP, h1a, h1c, h2, h3]
        · simp [gapCellP, h1a, h1c, h2]
      · simp [gapCellP, h1a, h1c]
    · simp [gapCellP, h1a, h1b]
  · simp [gapCellP, h1a]


/-- Claim C8: for every Action (and every action period), `run_action`'s
recipe completes with a final release of the input associated with the
remaining logical action, and every input held at any point during the
trace has been released by the time it returns (releases of unheld inputs
being no-ops). -/
theorem c8_run_action_releases_all (act_freq : Nat) (a : Action) :
    ∃ evs, run_action act_freq a.val = some evs ∧
      evs.getLast? = some (Event.release (remainingInput a)) ∧
      evs.foldl applyEvent [] = [] := by
  cases a <;> exact ⟨_, rfl, rfl, rfl⟩

/-- Claim C4: `get_enemy_dist` returns the first cell in column-major
(left-to-right, then top-to-bottom) scan order whose tile value is ≥ 15
and whose column is ≥ the agent's column — hence never a hostile whose
column is smaller — paired with its (squared) Euclidean distance and
value; when no such cell exists it returns the sentinel (10000² in
squared units) and the none category. -/
theorem c4_nearest_hostile_ahead (row col : Nat) (g : Grid) (hwf : g.WF) :
    (∃ p, (idxCM g.x g.y).find?
        (fun q : Nat × Nat => decide (15 ≤ g.valD q.1 q.2 ∧ col ≤ q.2)) = some p ∧
      col ≤ p.2 ∧ 15 ≤ g.valD p.1 p.2 ∧
      get_enemy_dist row col g =
        some (dist2 row col p.1 p.2, some (g.valD p.1 p.2))) ∨
    ((idxCM g.x g.y).find?
        (fun q : Nat × Nat => decide (15 ≤ g.valD q.1 q.2 ∧ col ≤ q.2)) = none ∧
      get_enemy_dist row col g = some (100000000, none)) := by
  rw [get_enemy_dist_eq row col g hwf]
  cases hfind : (idxCM g.x g.y).find?
      (fun q : Nat × Nat => decide (15 ≤ g.valD q.1 q.2 ∧ col ≤ q.2)) with
  | none => exact Or.inr ⟨rfl, rfl⟩
  | some p =>
    have hp := List.find?_some hfind
    simp only [decide_eq_true_eq] at hp
    exact Or.inl ⟨p, rfl, hp.2, hp.1, rfl⟩

/-- Witness for C4 at a concrete grid: a single GUMBA at (4,7) seen from
agent position (5,4). -/
theorem c4_witness :
    (∃ p, (idxCM gC4w.x gC4w.y).find?
        (fun q : Nat × Nat => decide (15 ≤ gC4w.valD q.1 q.2 ∧ 4 ≤ q.2)) = some p ∧
      4 ≤ p.2 ∧ 15 ≤ gC4w.valD p.1 p.2 ∧
      get_enemy_dist 5 4 gC4w =
        some (dist2 5 4 p.1 p.2, some (gC4w.valD p.1 p.2))) ∨
    ((idxCM gC4w.x gC4w.y).find?
        (fun q : Nat × Nat => decide (15 ≤ gC4w.valD q.1 q.2 ∧ 4 ≤ q.2)) = none ∧
      get_enemy_dist 5 4 gC4w = some (100000000, none)) :=
  c4_nearest_hostile_ahead 5 4 gC4w (by decide)

/-- Claim C5 (amended): `check_power_up` returns true iff the agent is
ground-stable per `check_on_ground`, the FIRST POWERUP cell in
column-major scan order lying above-or-level and to the right of the
agent is within (squared) distance ≤ 9, and the cell two rows below the
agent is GROUND; a later qualifying POWERUP does not suffice.  Stated for
agent positions whose reads stay in bounds. -/
theorem c5_collectible_above_amended (row col : Nat) (g : Grid) (hwf : g.WF)
    (hrow : row + 2 < g.x) (hcol : col + 1 < g.y) :
    ∃ bo, check_power_up row col g = some bo ∧
      (bo = true ↔ check_on_ground row col g = some true ∧
        ∃ p, (idxCM g.x g.y).find?
            (fun q : Nat × Nat => decide (g.valD q.1 q.2 = Element.POWERUP ∧
              row ≥ q.1 ∧ q.2 ≥ col)) = some p ∧
          dist2 row col p.1 p.2 ≤ 9 ∧
          g.valD (row + 2) col = Element.GROUND) := by
  obtain ⟨og, hog⟩ := Option.isSome_iff_exists.mp
    (check_on_ground_isSome row col g hwf hcol)
  cases og with
  | false =>
    refine ⟨false, check_power_up_eq_of_false row col g hwf hog, ?_⟩
    simp [hog]
  | true =>
    rw [check_power_up_eq_of_true row col g hwf hog hrow (by omega)]
    cases hfind : (idxCM g.x g.y).find?
        (fun q : Nat × Nat => decide (g.valD q.1 q.2 = Element.POWERUP ∧
          row ≥ q.1 ∧ q.2 ≥ col)) with
    | none =>
      refine ⟨false, rfl, ?_⟩
      simp [hog, hfind]
    | some p =>
      refine ⟨_, rfl, ?_⟩
      simp only [Option.elim]
      by_cases h9 : dist2 row col p.1 p.2 ≤ 9
      · simp [h9, hog]
      · simp [h9, hog]

/-- Counterexample to C5 as stated: at agent position (5,4) of `gC5x`, a
POWERUP at (5,6) satisfies every condition of the claim (above-or-level,
right, distance 2 ≤ 3, agent ground-stable, GROUND two rows below), yet
`check_power_up` returns false because the first-scanned in-quadrant
POWERUP (1,4) is at distance 4 > 3. -/
theorem c5_counterexample :
    check_power_up 5 4 gC5x = some false ∧
    gC5x.valD 5 6 = Element.POWERUP ∧ (5 : Nat) ≥ 5 ∧ (6 : Nat) ≥ 4 ∧
    dist2 5 4 5 6 ≤ 9 ∧
    check_on_ground 5 4 gC5x = some true ∧
    gC5x.valD 7 4 = Element.GROUND := by decide

/-- Witness for C5 (amended) at agent position (5,4) of `gC5x`. -/
theorem c5_witness :
    ∃ bo, check_power_up 5 4 gC5x = some bo ∧
      (bo = true ↔ check_on_ground 5 4 gC5x = some true ∧
        ∃ p, (idxCM gC5x.x gC5x.y).find?
            (fun q : Nat × Nat => decide (gC5x.valD q.1 q.2 = Element.POWERUP ∧
              5 ≥ q.1 ∧ q.2 ≥ 4)) = some p ∧
          dist2 5 4 p.1 p.2 ≤ 9 ∧
          gC5x.valD (5 + 2) 4 = Element.GROUND) :=
  c5_collectible_above_amended 5 4 gC5x (by decide) (by decide) (by decide)

/-- Claim C6 (amended): `check_empty_jump` returns true iff some EMPTY
cell lies exactly two rows below the agent and strictly to its right,
its three left-neighbour reads — taken with Python's negative-index
wrap-around when its column is < 3 — are all GROUND or all BLOCK, and
its squared distance satisfies 100·d² ≤ 841 (distance ≤ 2.9).  Stated
for grids of width ≥ 3. -/
theorem c6_gap_ahead_amended (row col : Nat) (g : Grid) (hwf : g.WF)
    (hy : 3 ≤ g.y) :
    ∃ bo, check_empty_jump row col g = some bo ∧
      (bo = true ↔ ∃ p ∈ idxCM g.x g.y, gapCellP g row col p) := by
  rw [check_empty_jump_eq row col g hwf hy]
  cases hfind : (idxCM g.x g.y).find?
      (fun p : Nat × Nat => decide (gapCellP g row col p)) with
  | none =>
    refine ⟨false, rfl, ?_⟩
    rw [List.find?_eq_none] at hfind
    refine iff_of_false (by simp) ?_
    rintro ⟨p, hp, hgap⟩
    have hng : ¬ gapCellP g row col p := by simpa using hfind p hp
    exact hng hgap
  | some p =>
    refine ⟨true, rfl, ?_⟩
    have hmem := List.mem_of_find?_eq_some hfind
    have hgap := List.find?_some hfind
    simp only [decide_eq_true_eq] at hgap
    exact iff_of_true rfl ⟨p, hmem, hgap⟩

/-- Counterexample to C6 as stated: with agent position (0,0) on `gC6x`,
`check_empty_jump` returns true via the EMPTY cell (2,1), whose
"left neighbours" are read at wrapped columns 0, 19, 18 — but no EMPTY
cell with three in-row left neighbours satisfies the claim's condition. -/
theorem c6_counterexample :
    check_empty_jump 0 0 gC6x = some true ∧ ¬ specGapAheadRHS gC6x 0 0 := by
  decide

/-- Witness for C6 (amended) at agent position (3,2) of the all-EMPTY
grid. -/
theorem c6_witness :
    ∃ bo, check_empty_jump 3 2 gZero = some bo ∧
      (bo = true ↔ ∃ p ∈ idxCM gZero.x gZero.y, gapCellP gZero 3 2 p) :=
  c6_gap_ahead_amended 3 2 gZero (by decide) (by decide)


theorem chooseAction_prev (g : Grid) (f : Facts) (h : Hist) (a : Action)
    (h' : Hist) (hc : chooseAction g f h = some (a, h')) :
    h'.prev_action = a := by
  unfold chooseAction at hc
  cases hr : chooseActionRaw g f h with
  | none => rw [hr] at hc; simp at hc
  | some c =>
    rw [hr] at hc
    simp only [Option.some.injEq, Prod.mk.injEq] at hc
    obtain ⟨h1, h2⟩ := hc
    rw [← h2, ← h1]

theorem chooseAction_ne_up_of_prev_up (g : Grid) (f : Facts) (h : Hist)
    (a : Action) (h' : Hist) (hprev : h.prev_action = Action.UP)
    (hc : chooseAction g f h = some (a, h')) : a ≠ Action.UP := by
  unfold chooseAction at hc
  cases hr : chooseActionRaw g f h with
  | none => rw [hr] at hc; simp at hc
  | some c =>
    rw [hr] at hc
    simp only [Option.some.injEq, Prod.mk.injEq] at hc
    obtain ⟨h1, _⟩ := hc
    rw [← h1]
    by_cases hcu : c = Action.UP
    · simp [hprev, hcu]
    · simp [hprev, hcu]

/-- Claim C7: the anti-stall fix-up — whenever the previous recorded
action is Up and the raw rule evaluation also selects Up, the emitted and
recorded action is Right; consequently two consecutive completed decision
steps never both emit Up. -/
theorem c7_anti_stall :
    (∀ (g : Grid) (f : Facts) (h : Hist),
      h.prev_action = Action.UP → chooseActionRaw g f h = some Action.UP →
        chooseAction g f h = some (Action.RIGHT, ⟨Action.RIGHT, f.x_pos⟩)) ∧
    (∀ (g1 : Grid) (f1 : Facts) (h0 : Hist) (a1 : Action) (h1 : Hist)
        (g2 : Grid) (f2 : Facts) (a2 : Action) (h2 : Hist),
      chooseAction g1 f1 h0 = some (a1, h1) →
      chooseAction g2 f2 h1 = some (a2, h2) →
      ¬(a1 = Action.UP ∧ a2 = Action.UP)) := by
  constructor
  · intro g f h hprev hraw
    unfold chooseAction
    rw [hraw]
    simp [hprev]
  · intro g1 f1 h0 a1 h1 g2 f2 a2 h2 hc1 hc2 hUU
    have hp1 := chooseAction_prev g1 f1 h0 a1 h1 hc1
    rw [hUU.1] at hp1
    exact chooseAction_ne_up_of_prev_up g2 f2 h1 a2 h2 hp1 hc2 hUU.2

/-- Witness for C7: on the all-EMPTY grid the raw evaluation selects Up
(rule h, agent row 0); with previous action Up the engine emits Right,
and the two-step instance confirms no consecutive Up. -/
theorem c7_witness :
    chooseAction gZero f0 ⟨Action.UP, 0⟩ =
      some (Action.RIGHT, ⟨Action.RIGHT, f0.x_pos⟩) ∧
    ¬(Action.UP = Action.UP ∧ Action.RIGHT = Action.UP) :=
  ⟨c7_anti_stall.1 gZero f0 ⟨Action.UP, 0⟩ rfl (by decide),
   c7_anti_stall.2 gZero f0 ⟨Action.RIGHT, 0⟩ Action.UP ⟨Action.UP, 0⟩
     gZero f0 Action.RIGHT ⟨Action.RIGHT, 0⟩ (by decide) (by decide)⟩

/-- Claim C1 (code-bug evidence): on a grid whose only AGENT cell sits in
the last column, `find_mario` reports leading-edge column 20 (one past
the last valid index), the pipe-check read `game_area[row+2][col]` is out
of bounds, and `choose_action` fails instead of returning an action. -/
theorem c1_out_of_bounds_eval :
    find_mario gC1 = some (0, 20) ∧ gC1.get 2 20 = none ∧
    chooseAction gC1 f0 ⟨Action.RIGHT, 0⟩ = none := by decide

/-- Claim C10: whenever the first AGENT cell in row-major order lies in
the last column (column 19 of a 16×20 grid), `find_mario` returns column
20 — one past the last valid column — and if that agent row is below the
near-top threshold, `choose_action`'s read of the grid at that column is
out of bounds, so the whole evaluation fails. -/
theorem c10_find_mario_last_column (g : Grid) (f : Facts) (h : Hist) (a : Nat)
    (hwf : g.WF) (hx : g.x = 16) (hy : g.y = 20)
    (hfirst : (idxRM g.x g.y).find?
        (fun p : Nat × Nat => decide (g.valD p.1 p.2 = 1)) = some (a, 19)) :
    find_mario g = some (a, 20) ∧ ¬ 20 < g.y ∧
      (a < 14 → chooseAction g f h = none) := by
  have hm : find_mario g = some (a, 20) := by
    rw [find_mario_eq g hwf, hfirst]
    rfl
  refine ⟨hm, by omega, ?_⟩
  intro ha14
  obtain ⟨ee, hfe⟩ := Option.isSome_iff_exists.mp (find_enemy_isSome g hwf)
  obtain ⟨de, hed⟩ := Option.isSome_iff_exists.mp
    (get_enemy_dist_isSome a 20 g hwf)
  obtain ⟨er, ec⟩ := ee
  obtain ⟨d2v, et⟩ := de
  have hg20 : g.get ((a : Int) + 2) (20 : Int) = none := by
    have hpy : pyIdx g.y (20 : Int) = none := by
      rw [hy]
      decide
    cases h1 : pyIdx g.x ((a : Int) + 2) with
    | none => simp [Grid.get, h1]
    | some ia =>
      cases h2 : g.data[ia]? with
      | none => simp [Grid.get, h1, h2]
      | some r => simp [Grid.get, h1, h2, hpy]
  cases hob : check_obstacle a 20 g with
  | none => simp [chooseAction, chooseActionRaw, hm, hfe, hed, hob]
  | some ob => simp [chooseAction, chooseActionRaw, hm, hfe, hed, hob, ha14, hg20]

/-- Witness for C10 at a concrete grid whose only AGENT cell is (3,19). -/
theorem c10_witness :
    find_mario gC10 = some (3, 20) ∧ ¬ 20 < gC10.y ∧
      ((3 : Nat) < 14 → chooseAction gC10 f0 ⟨Action.RIGHT, 0⟩ = none) :=
  c10_find_mario_last_column gC10 f0 ⟨Action.RIGHT, 0⟩ 3 (by decide) (by decide)
    (by decide) (by decide)


/-- Claim C2 (amended): standing on a PIPE (agent row below the near-top
threshold, PIPE two rows below the leading edge), the engine emits Up
exactly when the previous action is one of Jump, jump-over-gap,
jump-over-obstacle, jump-to-collect-powerup — not every jump variant —
and jump-while-moving-right otherwise; stated under the proviso that the
eagerly-run obstacle scan does not fault. -/
theorem c2_pipe_rule_amended (g : Grid) (f : Facts) (h : Hist) (row col : Nat)
    (hwf : g.WF) (hm : find_mario g = some (row, col)) (hrow : row < 14)
    (hpipe : g.get ((row : Int) + 2) col = some Element.PIPE)
    (hob : (check_obstacle row col g).isSome) :
    chooseAction g f h =
      some (if h.prev_action ∈
              [Action.JUMP, Action.JUMP_EMPTY, Action.JUMP_OBS,
               Action.JUMP_POWER_UP]
            then (Action.UP, (⟨Action.UP, f.x_pos⟩ : Hist))
            else (Action.JUMP_RIGHT, ⟨Action.JUMP_RIGHT, f.x_pos⟩)) := by
  obtain ⟨ee, hfe⟩ := Option.isSome_iff_exists.mp (find_enemy_isSome g hwf)
  obtain ⟨de, hed⟩ := Option.isSome_iff_exists.mp
    (get_enemy_dist_isSome row col g hwf)
  obtain ⟨ob, hob⟩ := Option.isSome_iff_exists.mp hob
  obtain ⟨er, ec⟩ := ee
  obtain ⟨d2v, et⟩ := de
  simp only [chooseAction, chooseActionRaw, hm, hfe, hed, hob, hpipe, hrow,
    if_true, ite_true]
  by_cases hmem : h.prev_action ∈
      [Action.JUMP, Action.JUMP_EMPTY, Action.JUMP_OBS, Action.JUMP_POWER_UP]
  · have hne : h.prev_action ≠ Action.UP := by
      intro he
      rw [he] at hmem
      simp at hmem
    simp [hmem, hne]
  · simp [hmem]

/-- Counterexample to C2 as stated: on `gPipe` with previous action
JUMP_SKIP_ENEMY — a jump variant of the Action set — the engine emits
jump-while-moving-right, not Up. -/
theorem c2_counterexample :
    specJumpVariant Action.JUMP_SKIP_ENEMY = true ∧
    find_mario gPipe = some (5, 4) ∧ (5 : Nat) < 14 ∧
    gPipe.get 7 4 = some Element.PIPE ∧
    chooseAction gPipe f0 ⟨Action.JUMP_SKIP_ENEMY, 0⟩ =
      some (Action.JUMP_RIGHT, ⟨Action.JUMP_RIGHT, 0⟩) ∧
    Action.JUMP_RIGHT ≠ Action.UP := by decide

/-- Witness for C2 (amended): previous action plain Jump on `gPipe`
yields Up. -/
theorem c2_witness :
    chooseAction gPipe f0 ⟨Action.JUMP, 0⟩ =
      some (Action.UP, ⟨Action.UP, 0⟩) :=
  (c2_pipe_rule_amended gPipe f0 ⟨Action.JUMP, 0⟩ 5 4 (by decide) (by decide)
    (by decide) (by decide) (by decide)).trans (by decide)

/-- Claim C3 (amended): when rule 2c is reached (row below the near-top
threshold, not standing on a PIPE, rule 2b's enemy-above condition
false), and the row-major-first hostile lies AT LEAST TWO ROWS below the
agent's row with a nonzero row, the nearest-ahead hostile distance is
< 7 (squared < 49), the cell two rows below the agent is not EMPTY, and
the previous action is plain Right, the engine emits jump-over-gap;
stated under the proviso that the eager scans complete. -/
theorem c3_enemy_below_amended (g : Grid) (f : Facts) (h : Hist)
    (row col er ec : Nat) (d2v : Int) (et : Option Nat) (ob : ObsCheck)
    (pc : Nat)
    (hm : find_mario g = some (row, col)) (hrow : row < 14)
    (hfe : find_enemy g = some (er, ec))
    (hed : get_enemy_dist row col g = some (d2v, et))
    (hob : check_obstacle row col g = some ob)
    (hpc : g.get ((row : Int) + 2) col = some pc)
    (hnp : pc ≠ Element.PIPE) (hne : pc ≠ Element.EMPTY)
    (hnab : ¬(er < row ∧ ec > col ∧ d2v < 36))
    (hbelow : row + 2 ≤ er) (her0 : er ≠ 0)
    (hprev : h.prev_action = Action.RIGHT)
    (hd : d2v < 49) :
    chooseAction g f h =
      some (Action.JUMP_EMPTY, ⟨Action.JUMP_EMPTY, f.x_pos⟩) := by
  simp only [chooseAction, chooseActionRaw, hm, hfe, hed, hob, hpc, hrow,
    if_true]
  rw [if_neg hnp, if_neg hnab, if_pos ⟨hbelow, her0, by simp [hprev], hne, hd⟩]
  simp [hprev]

/-- Counterexample to C3 as stated: on `gC3x` the hostile at (6,5) is at
or below the agent's level (one row below the leading edge (5,4)), ahead,
at squared distance 2 < 49, the cell two rows below is GROUND (not
EMPTY), and the previous action is Right — yet the engine emits plain
Jump (rule 2d), because rule 2c additionally requires the hostile to be
at least two rows below. -/
theorem c3_counterexample :
    find_mario gC3x = some (5, 4) ∧ (5 : Nat) < 14 ∧
    gC3x.valD 7 4 = Element.GROUND ∧
    find_enemy gC3x = some (6, 5) ∧ (5 : Nat) ≤ 6 ∧ (4 : Nat) < 5 ∧
    get_enemy_dist 5 4 gC3x = some (2, some 15) ∧ (2 : Int) < 49 ∧
    chooseAction gC3x f0 ⟨Action.RIGHT, 0⟩ =
      some (Action.JUMP, ⟨Action.JUMP, 0⟩) ∧
    Action.JUMP ≠ Action.JUMP_EMPTY := by decide

/-- Witness for C3 (amended) on `gC3w` (hostile two rows below, ahead,
previous action Right). -/
theorem c3_witness :
    chooseAction gC3w f0 ⟨Action.RIGHT, 0⟩ =
      some (Action.JUMP_EMPTY, ⟨Action.JUMP_EMPTY, f0.x_pos⟩) :=
  c3_enemy_below_amended gC3w f0 ⟨Action.RIGHT, 0⟩ 5 4 7 5 5 (some 15)
    ObsCheck.noObstacle Element.GROUND (by decide) (by decide) (by decide)
    (by decide) (by decide) (by decide) (by decide) (by decide) (by decide)
    (by decide) (by decide) rfl (by decide)


/-- Claim C9: the engine returns jump-while-moving-right only from the
pipe-dismount branch; in particular the basic-hostile sub-branch that
would select it (previous = Jump, distance ≥ 5) is unreachable inside
the enclosing distance ≤ 4.5 rule (4·d² ≤ 81 and ¬(d² < 25) contradict).
Whenever `choose_action` returns JUMP_RIGHT, the agent's row is below the
near-top threshold, the cell two rows below is a PIPE, and the previous
action is not one of the four jump kinds of the pipe rule. -/
theorem c9_jump_right_only_from_pipe (g : Grid) (f : Facts) (h h' : Hist)
    (hc : chooseAction g f h = some (Action.JUMP_RIGHT, h')) :
    ∃ row col, find_mario g = some (row, col) ∧ row < 14 ∧
      g.get ((row : Int) + 2) col = some Element.PIPE ∧
      h.prev_action ∉
        [Action.JUMP, Action.JUMP_EMPTY, Action.JUMP_OBS,
         Action.JUMP_POWER_UP] := by
  unfold chooseAction at hc
  cases hraw : chooseActionRaw g f h with
  | none => rw [hraw] at hc; simp at hc
  | some curr =>
    rw [hraw] at hc
    simp only [Option.some.injEq, Prod.mk.injEq] at hc
    have hcur : curr = Action.JUMP_RIGHT := by
      rcases hc with ⟨hfin, -⟩
      by_cases hup : h.prev_action = Action.UP ∧ curr = Action.UP
      · rw [if_pos hup] at hfin
        exact absurd hfin (by decide)
      · rw [if_neg hup] at hfin
        exact hfin
    subst hcur
    unfold chooseActionRaw at hraw
    cases hm : find_mario g with
    | none => simp [hm] at hraw
    | some rc =>
      obtain ⟨row, col⟩ := rc
      simp only [hm] at hraw
      cases hfe : find_enemy g with
      | none => simp [hfe] at hraw
      | some ee =>
        obtain ⟨er, ec⟩ := ee
        simp only [hfe] at hraw
        cases hed : get_enemy_dist row col g with
        | none => simp [hed] at hraw
        | some de =>
          obtain ⟨d2v, et⟩ := de
          simp only [hed] at hraw
          cases hob : check_obstacle row col g with
          | none => simp [hob] at hraw
          | some ob =>
            simp only [hob] at hraw
            by_cases hrow : row < 14
            · rw [if_pos hrow] at hraw
              cases hpc : g.get ((row : Int) + 2) col with
              | none => simp [hpc] at hraw
              | some pc =>
                simp only [hpc] at hraw
                by_cases hpipe : pc = Element.PIPE
                · refine ⟨row, col, rfl, hrow, by rw [hpc, hpipe], ?_⟩
                  intro hmem
                  rw [if_pos hpipe, if_pos hmem] at hraw
                  exact absurd hraw (by decide)
                · exfalso
                  rw [if_neg hpipe] at hraw
                  cases hej : check_empty_jump row col g with
                  | none =>
                    simp only [hej] at hraw
                    split_ifs at hraw <;>
                      first
                        | exact absurd hraw (by decide)
                        | omega
                        | simp_all
                  | some ejb =>
                    simp only [hej] at hraw
                    cases ejb with
                    | true =>
                      split_ifs at hraw <;>
                        first
                          | exact absurd hraw (by decide)
                          | omega
                          | simp_all
                    | false =>
                      cases hpu : check_power_up row col g with
                      | none =>
                        simp only [hpu] at hraw
                        split_ifs at hraw <;>
                          first
                            | exact absurd hraw (by decide)
                            | omega
                            | simp_all
                      | some pub =>
                        simp only [hpu] at hraw
                        cases pub <;>
                          (split_ifs at hraw <;>
                            first
                              | exact absurd hraw (by decide)
                              | omega
                              | simp_all)
            · rw [if_neg hrow] at hraw
              exact absurd hraw (by decide)

/-- Witness for C9: on `gPipe` with previous action Right the engine does
return JUMP_RIGHT, and the extracted facts hold. -/
theorem c9_witness :
    ∃ row col, find_mario gPipe = some (row, col) ∧ row < 14 ∧
      gPipe.get ((row : Int) + 2) col = some Element.PIPE ∧
      (⟨Action.RIGHT, 0⟩ : Hist).prev_action ∉
        [Action.JUMP, Action.JUMP_EMPTY, Action.JUMP_OBS,
         Action.JUMP_POWER_UP] :=
  c9_jump_right_only_from_pipe gPipe f0 ⟨Action.RIGHT, 0⟩
    ⟨Action.JUMP_RIGHT, 0⟩ (by decide)

end Mario
